import Mathlib

/-!
Verification development for the `circle` socket crate
(`crates/socket/src/lib.rs`): a request/response RPC mechanism over local
Unix domain sockets.  The wire format is JSON; the server reads one
request per connection, dispatches on the command name through a handler
registry, and writes one response back; the client performs one exchange
per call with a timeout on the connect and read phases.

The shallow embedding below models:
  - JSON documents as an inductive `Json` tree (serde_json values);
  - serde `Serialize`/`Deserialize` dictionaries for a data type as a
    `Codec` record (an encoder into `Json` and a partial decoder);
  - the hand-written serde impls for `SocketPayload` and `SocketResponse`
    as `encodePayload`/`decodePayload` and `encodeResponse`/`decodeResponse`;
  - the handler registry (`HashMap<String, RequestHandler>`) as an
    association list with at most one entry per key, with `hashMapInsert`
    and `hashMapGet` mirroring `HashMap::insert` / `HashMap::get`;
  - `SocketServer::handle_connection` as a pure function from the bytes
    read on the stream (abstracted to: empty read / undecodable bytes /
    a JSON document) to the pair of the function's `SocketResult<()>`
    return value and the (at most one) response document written back.
    Stream writes are modelled as always succeeding; transport write
    failures are outside the claims considered here;
  - `SocketClient::send_request` as a pure function over an environment
    describing the outcome of each I/O phase (connect, write, timed read).
-/

namespace Circle

/-- JSON documents, as produced and consumed by serde_json.  Object fields
are kept in serialization order. -/
inductive Json where
  | null
  | bool (b : Bool)
  | num (n : Int)
  | str (s : String)
  | arr (elems : List Json)
  | obj (fields : List (String × Json))

/-- Extract a JSON string, as serde does when deserializing a `String` field. -/
def Json.asString : Json → Option String
  | .str s => some s
  | _ => none

/-- Extract a JSON boolean, as serde does when deserializing a `bool` field. -/
def Json.asBool : Json → Option Bool
  | .bool b => some b
  | _ => none

/-- Extract the field list of a JSON object. -/
def Json.asObj : Json → Option (List (String × Json))
  | .obj fields => some fields
  | _ => none

/-- Look up a field by name in a JSON object's field list (first occurrence).
All field lists produced by the encoders in this development have distinct
keys, so first-occurrence lookup agrees with serde's struct deserializer on
every document the encoders emit. -/
def getField : List (String × Json) → String → Option Json
  | [], _ => none
  | (k, v) :: rest, name => if k == name then some v else getField rest name

/-- A serde `Serialize + Deserialize` dictionary for a data type: the
encoder into JSON and the partial decoder.  This models the `T: Serialize +
for<'de> Deserialize<'de>` bounds on the generic payload data. -/
structure Codec (α : Type) where
  enc : α → Json
  dec : Json → Option α

/-- The serde codec for `Option<A>`: `None` serializes to JSON null, `Some a`
serializes as `a` itself; deserialization maps null to `None` and any other
document through `A`'s deserializer.  This is serde's blanket impl, used for
the `data: Option<R>` and `error: Option<String>` fields of `SocketResponse`. -/
def optionCodec (c : Codec α) : Codec (Option α) where
  enc o :=
    match o with
    | none => Json.null
    | some a => c.enc a
  dec j :=
    match j with
    | Json.null => some none
    | j => (c.dec j).map some

/-- The serde codec for `String`. -/
def stringCodec : Codec String where
  enc s := Json.str s
  dec := Json.asString

/-- The serde codec for an unsigned machine integer such as `u32`
(used only to instantiate the generic envelopes at concrete types). -/
def natCodec : Codec Nat where
  enc n := Json.num (Int.ofNat n)
  dec j :=
    match j with
    | Json.num (Int.ofNat n) => some n
    | _ => none

/-- The request envelope `SocketPayload<T, R>`: `request_id`, `command`,
`data`, plus a phantom response-type marker `R` that has no runtime field
(mirroring `_phantom: PhantomData<R>`). -/
structure SocketPayload (T : Type) (R : Type) where
  request_id : String
  command : String
  data : T
  deriving DecidableEq

/-- The response envelope `SocketResponse<R>`. -/
structure SocketResponse (R : Type) where
  request_id : String
  success : Bool
  data : Option R
  error : Option String
  deriving DecidableEq

/-- The hand-written `Serialize` impl for `SocketPayload` (lib.rs lines
43-58): a struct of exactly the three fields `request_id`, `command`,
`data`, in that order.  The phantom response-type marker contributes no
field. -/
def encodePayload (c : Codec T) (p : SocketPayload T R) : Json :=
  Json.obj
    [("request_id", Json.str p.request_id),
     ("command", Json.str p.command),
     ("data", c.enc p.data)]

/-- The hand-written `Deserialize` impl for `SocketPayload` (lib.rs lines
60-83): deserialize the helper struct `SocketPayloadData { request_id,
command, data }` from a JSON object and repackage it with a fresh phantom
marker. -/
def decodePayload (c : Codec T) (j : Json) : Option (SocketPayload T R) :=
  (j.asObj).bind fun fields =>
  ((getField fields "request_id").bind Json.asString).bind fun rid =>
  ((getField fields "command").bind Json.asString).bind fun cmd =>
  ((getField fields "data").bind c.dec).bind fun d =>
  some ⟨rid, cmd, d⟩

/-- The hand-written `Serialize` impl for `SocketResponse` (lib.rs lines
110-126): a struct of exactly the four fields `request_id`, `success`,
`data`, `error`, the two optional ones through serde's `Option` codec. -/
def encodeResponse (c : Codec R) (r : SocketResponse R) : Json :=
  Json.obj
    [("request_id", Json.str r.request_id),
     ("success", Json.bool r.success),
     ("data", (optionCodec c).enc r.data),
     ("error", (optionCodec stringCodec).enc r.error)]

/-- The hand-written `Deserialize` impl for `SocketResponse` (lib.rs lines
128-152), via the helper struct `SocketResponseData`. -/
def decodeResponse (c : Codec R) (j : Json) : Option (SocketResponse R) :=
  (j.asObj).bind fun fields =>
  ((getField fields "request_id").bind Json.asString).bind fun rid =>
  ((getField fields "success").bind Json.asBool).bind fun succ =>
  ((getField fields "data").bind (optionCodec c).dec).bind fun d =>
  ((getField fields "error").bind (optionCodec stringCodec).dec).bind fun err =>
  some ⟨rid, succ, d, err⟩

/-- The success factory `SocketResponse::success` (lib.rs lines 156-163).
Named `mkSuccess` because the field projection already claims the name
`SocketResponse.success`. -/
def SocketResponse.mkSuccess (request_id : String) (data : R) : SocketResponse R :=
  { request_id := request_id, success := true, data := some data, error := none }

/-- The error factory `SocketResponse::error` (lib.rs lines 166-173).
Named `mkError` because the field projection already claims the name
`SocketResponse.error`. -/
def SocketResponse.mkError (R : Type) (request_id : String) (error : String) : SocketResponse R :=
  { request_id := request_id, success := false, data := none, error := some error }

/-- The error taxonomy `SocketError` (lib.rs lines 11-25).  The wrapped
`std::io::Error` and `serde_json::Error` payloads are abstracted to their
display strings. -/
inductive SocketError where
  | Io (msg : String)
  | Serialization (msg : String)
  | AlreadyExists (path : String)
  | ConnectionTimeout
  | HandlerNotFound (command : String)
  | InvalidRequest
  deriving DecidableEq

/-- The `Display` impl derived by thiserror from the `#[error(...)]`
attributes on `SocketError`, i.e. what `e.to_string()` returns. -/
def SocketError.toMessage : SocketError → String
  | .Io m => "IO error: " ++ m
  | .Serialization m => "Serialization error: " ++ m
  | .AlreadyExists p => "Socket already exists at path: " ++ p
  | .ConnectionTimeout => "Connection timed out"
  | .HandlerNotFound c => "Request handler not found for command: " ++ c
  | .InvalidRequest => "Invalid request format"

/-- The `SocketResult<T>` alias. -/
abbrev SocketResult (α : Type) := Except SocketError α

/-- A registered handler: `RequestHandler<T, R>` (lib.rs line 204), a
function from a decoded payload to a `SocketResult<SocketResponse<R>>`. -/
abbrev RequestHandler (T R : Type) := SocketPayload T R → SocketResult (SocketResponse R)

/-- The handler registry `HashMap<String, RequestHandler<T, R>>`, modelled
as an association list with at most one entry per key. -/
abbrev Registry (T R : Type) := List (String × RequestHandler T R)

/-- `HashMap::insert`: replace the value stored under the key if the key is
present, otherwise add a new entry.  On lists whose keys are distinct (the
invariant every `HashMap` maintains) this is exactly the map-update of
`HashMap::insert`. -/
def hashMapInsert (m : List (String × α)) (k : String) (v : α) : List (String × α) :=
  match m with
  | [] => [(k, v)]
  | (k0, v0) :: rest =>
    if k0 == k then (k, v) :: rest else (k0, v0) :: hashMapInsert rest k v

/-- `HashMap::get`: the value stored under the key, if any. -/
def hashMapGet (m : List (String × α)) (k : String) : Option α :=
  match m with
  | [] => none
  | (k0, v0) :: rest => if k0 == k then some v0 else hashMapGet rest k

/-- `SocketServer::register_handler` (lib.rs lines 226-232): take the write
lock and insert the handler under the command name.  `HashMap::insert`
replaces any previous handler for the same command; no error is produced
for a duplicate key. -/
def registerHandler (handlers : Registry T R) (command : String)
    (handler : RequestHandler T R) : Registry T R :=
  hashMapInsert handlers command handler

/-- The outcome of the single `stream.read` into the 8 KiB buffer, at the
level of what the subsequent `serde_json::from_str` can observe: zero bytes
were read; bytes were read but do not form one JSON document; or bytes were
read forming the JSON document `j`. -/
inductive ReadBytes where
  | empty
  | notJson
  | json (j : Json)

/-- `SocketServer::handle_connection` (lib.rs lines 263-312), from the
point after the single read.  Returns the function's `SocketResult<()>`
value together with the response document written back on the stream, if
any (the stream write itself is modelled as succeeding).

  - zero bytes read: log and return `Ok(())`, nothing written;
  - bytes that fail to parse as a `SocketPayload`: the `serde_json`
    error is mapped to `SocketError::InvalidRequest` and propagated by
    `?`, nothing written;
  - decoded payload: look the command up in the registry; a found
    handler's `Ok` response is serialized and written, a found handler's
    `Err(e)` becomes `SocketResponse::error(request_id, e.to_string())`,
    and a missing handler becomes `SocketResponse::error(request_id,
    format!("No handler for command: {}", command))`; in all three cases
    the function returns `Ok(())`. -/
def handle_connection (cT : Codec T) (cR : Codec R) (handlers : Registry T R)
    (input : ReadBytes) : SocketResult Unit × Option Json :=
  match input with
  | ReadBytes.empty => (Except.ok (), none)
  | ReadBytes.notJson => (Except.error SocketError.InvalidRequest, none)
  | ReadBytes.json j =>
    match decodePayload (R := R) cT j with
    | none => (Except.error SocketError.InvalidRequest, none)
    | some payload =>
      match hashMapGet handlers payload.command with
      | some handler =>
        match handler payload with
        | Except.ok response => (Except.ok (), some (encodeResponse cR response))
        | Except.error e =>
          (Except.ok (),
           some (encodeResponse cR
             (SocketResponse.mkError R payload.request_id e.toMessage)))
      | none =>
        (Except.ok (),
         some (encodeResponse cR
           (SocketResponse.mkError R payload.request_id
             ("No handler for command: " ++ payload.command))))

/-- A phase of the client bounded by `tokio::time::timeout`: either the
timeout elapsed first, or the inner operation completed with its result. -/
inductive Timed (α : Type) where
  | timedOut
  | completed (a : α)
  deriving DecidableEq

/-- The I/O environment one `SocketClient::send_request` call runs in: the
outcome of the timed `UnixStream::connect`, of `write_all`+`shutdown` on
the request bytes, and of the timed single `stream.read`.  I/O errors are
abstracted to their display strings. -/
structure ClientEnv where
  connect : Timed (Except String Unit)
  write : Json → Except String Unit
  read : Timed (Except String ReadBytes)

/-- `SocketClient::send_request` (lib.rs lines 327-361):

  - connect under timeout: elapsing maps to `SocketError::ConnectionTimeout`
    via the outer `map_err`, an `io::Error` from the completed connect maps
    to `SocketError::Io` via the inner `?`;
  - serialize the payload, `write_all` it and shut the write side down
    (an `io::Error` there maps to `SocketError::Io`);
  - read once under the same timeout, with the same two error mappings;
  - a zero-byte read returns `Err(SocketError::InvalidRequest)`;
  - otherwise parse the bytes as a `SocketResponse`; a parse failure maps
    to `SocketError::Serialization` via `From<serde_json::Error>`, and a
    parsed response is returned as-is. -/
def send_request (cT : Codec T) (cR : Codec R) (env : ClientEnv)
    (payload : SocketPayload T R) : SocketResult (SocketResponse R) :=
  match env.connect with
  | Timed.timedOut => Except.error SocketError.ConnectionTimeout
  | Timed.completed (Except.error e) => Except.error (SocketError.Io e)
  | Timed.completed (Except.ok ()) =>
    match env.write (encodePayload cT payload) with
    | Except.error e => Except.error (SocketError.Io e)
    | Except.ok () =>
      match env.read with
      | Timed.timedOut => Except.error SocketError.ConnectionTimeout
      | Timed.completed (Except.error e) => Except.error (SocketError.Io e)
      | Timed.completed (Except.ok ReadBytes.empty) =>
        Except.error SocketError.InvalidRequest
      | Timed.completed (Except.ok ReadBytes.notJson) =>
        Except.error (SocketError.Serialization "expected value")
      | Timed.completed (Except.ok (ReadBytes.json j)) =>
        match decodeResponse cR j with
        | none => Except.error (SocketError.Serialization "invalid response")
        | some response => Except.ok response

/-! ### Round-trip lemmas for the wire format -/

/-- On any JSON document other than null, the serde `Option` codec decodes
through the inner type's decoder. -/
theorem optionCodec_dec_of_ne_null (c : Codec α) (j : Json) (h : j ≠ Json.null) :
    (optionCodec c).dec j = (c.dec j).map some := by
  cases j
  case null => exact absurd rfl h
  all_goals rfl

/-- Decoding the encoding of a payload recovers the payload, provided the
data codec round-trips. -/
theorem decodePayload_encodePayload (c : Codec T)
    (hT : ∀ a, c.dec (c.enc a) = some a) (p : SocketPayload T R) :
    decodePayload c (encodePayload c p) = some p := by
  have h1 : decodePayload (R := R) c (encodePayload c p) =
      (c.dec (c.enc p.data)).bind (fun d => some ⟨p.request_id, p.command, d⟩) := rfl
  rw [h1, hT]
  rfl

/-- Decoding the encoding of a response recovers the response, provided the
data codec round-trips and never encodes a value to JSON null. -/
theorem decodeResponse_encodeResponse (c : Codec R)
    (hR : ∀ a, c.dec (c.enc a) = some a)
    (hRn : ∀ a, c.enc a ≠ Json.null) (r : SocketResponse R) :
    decodeResponse c (encodeResponse c r) = some r := by
  obtain ⟨rid, succ, d, err⟩ := r
  cases d with
  | none =>
    have h1 : decodeResponse c (encodeResponse c ⟨rid, succ, none, err⟩) =
        ((optionCodec stringCodec).dec ((optionCodec stringCodec).enc err)).bind
          (fun e => some ⟨rid, succ, none, e⟩) := rfl
    rw [h1]
    cases err <;> rfl
  | some a =>
    have h1 : decodeResponse c (encodeResponse c ⟨rid, succ, some a, err⟩) =
        ((optionCodec c).dec (c.enc a)).bind (fun d' =>
          ((optionCodec stringCodec).dec ((optionCodec stringCodec).enc err)).bind
            (fun e => some ⟨rid, succ, d', e⟩)) := rfl
    rw [h1, optionCodec_dec_of_ne_null c _ (hRn a), hR a]
    cases err <;> rfl

/-- The `Nat` codec round-trips. -/
theorem natCodec_roundtrip (n : Nat) : natCodec.dec (natCodec.enc n) = some n := rfl

/-- The `Nat` codec never encodes to JSON null. -/
theorem natCodec_ne_null (n : Nat) : natCodec.enc n ≠ Json.null := fun h =>
  Json.noConfusion h

/-! ### Claims -/

/-- C2 (amended).  Encoding then decoding recovers every `Payload` whose
data codec round-trips, and every `Response` whose data codec round-trips
and never encodes a value to JSON null; moreover the encoding of a payload
is an object of exactly the three fields `request_id`, `command`, `data` —
the phantom response-type marker contributes nothing.  (The null-freedom
proviso is forced: serde's `Option` codec collapses `Some(None)`-style
data to null on the wire, see the counterexample.) -/
theorem socket_roundtrip (cT : Codec T) (cR : Codec R)
    (hT : ∀ a, cT.dec (cT.enc a) = some a)
    (hR : ∀ a, cR.dec (cR.enc a) = some a)
    (hRn : ∀ a, cR.enc a ≠ Json.null) :
    (∀ p : SocketPayload T R, decodePayload cT (encodePayload cT p) = some p) ∧
    (∀ r : SocketResponse R, decodeResponse cR (encodeResponse cR r) = some r) ∧
    (∀ p : SocketPayload T R, encodePayload cT p =
      Json.obj [("request_id", Json.str p.request_id),
                ("command", Json.str p.command),
                ("data", cT.enc p.data)]) :=
  ⟨fun p => decodePayload_encodePayload cT hT p,
   fun r => decodeResponse_encodeResponse cR hR hRn r,
   fun _ => rfl⟩

/-- Witness for C2 at the `Nat` data codec. -/
theorem socket_roundtrip_witness :
    decodePayload (R := Nat) natCodec
        (encodePayload natCodec (⟨"id-0", "start", 42⟩ : SocketPayload Nat Nat)) =
      some (⟨"id-0", "start", 42⟩ : SocketPayload Nat Nat) ∧
    decodeResponse natCodec
        (encodeResponse natCodec (SocketResponse.mkSuccess "id-0" (84 : Nat))) =
      some (SocketResponse.mkSuccess "id-0" (84 : Nat)) := by
  obtain ⟨hp, hr, _⟩ :=
    socket_roundtrip natCodec natCodec natCodec_roundtrip natCodec_roundtrip natCodec_ne_null
  exact ⟨hp _, hr _⟩

/-- Counterexample to C2 as stated: over the (serde-serializable) data type
`Option<u32>`, the response built by the success factory from `None` has
`data = Some(None)`, which serde encodes to JSON null; decoding yields
`data = None`, so the decoded response differs from the original in the
`data` field. -/
theorem response_roundtrip_counterexample :
    decodeResponse (optionCodec natCodec)
        (encodeResponse (optionCodec natCodec)
          (SocketResponse.mkSuccess "id-1" (none : Option Nat))) ≠
      some (SocketResponse.mkSuccess "id-1" (none : Option Nat)) := by
  intro h
  have h1 : decodeResponse (optionCodec natCodec)
      (encodeResponse (optionCodec natCodec)
        (SocketResponse.mkSuccess "id-1" (none : Option Nat))) =
      some ⟨"id-1", true, none, none⟩ := rfl
  rw [h1] at h
  simp [SocketResponse.mkSuccess] at h

/-- C5.  The success factory sets `success = true`, `data = Some`, `error =
None`; the error factory sets `success = false`, `data = None`, `error =
Some`; both preserve the given request id, so exactly one of `data`/`error`
is populated, determined by `success`. -/
theorem response_factories_shape (R : Type) (id : String) (d : R) (msg : String) :
    (SocketResponse.mkSuccess id d).request_id = id ∧
    (SocketResponse.mkSuccess id d).success = true ∧
    (SocketResponse.mkSuccess id d).data = some d ∧
    (SocketResponse.mkSuccess id d).error = none ∧
    (SocketResponse.mkError R id msg).request_id = id ∧
    (SocketResponse.mkError R id msg).success = false ∧
    (SocketResponse.mkError R id msg).data = none ∧
    (SocketResponse.mkError R id msg).error = some msg :=
  ⟨rfl, rfl, rfl, rfl, rfl, rfl, rfl, rfl⟩

/-- C9.  A zero-byte read makes `handle_connection` return `Ok(())` with no
response written: the empty connection is not an error, and neither
decoding nor dispatch happens. -/
theorem handle_connection_empty_read (cT : Codec T) (cR : Codec R)
    (handlers : Registry T R) :
    handle_connection cT cR handlers ReadBytes.empty = (Except.ok (), none) := rfl

/-! ### Server connection handling -/

/-- C6.  When the bytes read on a connection fail to decode as a
`SocketPayload` — they are not a JSON document at all, or they are a JSON
document the payload deserializer rejects — `handle_connection` returns
`Err(SocketError::InvalidRequest)` and writes nothing back. -/
theorem handle_connection_undecodable (cT : Codec T) (cR : Codec R)
    (handlers : Registry T R) (input : ReadBytes)
    (h : input = ReadBytes.notJson ∨
      ∃ j, input = ReadBytes.json j ∧ decodePayload (R := R) cT j = none) :
    handle_connection cT cR handlers input =
      (Except.error SocketError.InvalidRequest, none) := by
  rcases h with h | ⟨j, hj, hdec⟩
  · rw [h]; rfl
  · rw [hj]; simp only [handle_connection, hdec]

/-- Witness for C6: a JSON document with none of the payload fields is
rejected by the decoder. -/
theorem handle_connection_undecodable_witness :
    handle_connection natCodec natCodec ([] : Registry Nat Nat)
        (ReadBytes.json (Json.obj [])) =
      (Except.error SocketError.InvalidRequest, none) :=
  handle_connection_undecodable natCodec natCodec [] (ReadBytes.json (Json.obj []))
    (Or.inr ⟨Json.obj [], rfl, rfl⟩)

/-- C3.  When the decoded request names a command absent from the registry,
`handle_connection` returns `Ok(())` and writes back a response with the
original request id, `success = false`, no data, and an error message that
contains the missing command name. -/
theorem handle_connection_unknown_command (cT : Codec T) (cR : Codec R)
    (handlers : Registry T R) (j : Json) (p : SocketPayload T R)
    (hdec : decodePayload (R := R) cT j = some p)
    (hfind : hashMapGet handlers p.command = none) :
    ∃ resp : SocketResponse R,
      handle_connection cT cR handlers (ReadBytes.json j) =
        (Except.ok (), some (encodeResponse cR resp)) ∧
      resp.request_id = p.request_id ∧
      resp.success = false ∧
      resp.data = none ∧
      ∃ msg pre post, resp.error = some msg ∧ msg = pre ++ p.command ++ post := by
  refine ⟨SocketResponse.mkError R p.request_id ("No handler for command: " ++ p.command),
    ?_, rfl, rfl, rfl, "No handler for command: " ++ p.command,
    "No handler for command: ", "", rfl, ?_⟩
  · simp only [handle_connection, hdec, hfind]
  · simp

/-- Witness for C3: the command "unknown" against an empty registry. -/
theorem handle_connection_unknown_command_witness :
    ∃ resp : SocketResponse Nat,
      handle_connection natCodec natCodec ([] : Registry Nat Nat)
          (ReadBytes.json (encodePayload natCodec
            (⟨"id-2", "unknown", 7⟩ : SocketPayload Nat Nat))) =
        (Except.ok (), some (encodeResponse natCodec resp)) ∧
      resp.request_id = "id-2" ∧
      resp.success = false ∧
      resp.data = none ∧
      ∃ msg pre post, resp.error = some msg ∧ msg = pre ++ "unknown" ++ post :=
  handle_connection_unknown_command natCodec natCodec []
    (encodePayload natCodec (⟨"id-2", "unknown", 7⟩ : SocketPayload Nat Nat))
    ⟨"id-2", "unknown", 7⟩ rfl rfl

/-- C4.  When the registered handler returns `Err(e)`, `handle_connection`
still returns `Ok(())` — the handler failure is not propagated as a
transport error — and writes back the well-formed response
`SocketResponse::error(request_id, e.to_string())`: original request id,
`success = false`, no data, error equal to the display string of `e`. -/
theorem handle_connection_handler_error (cT : Codec T) (cR : Codec R)
    (handlers : Registry T R) (j : Json) (p : SocketPayload T R)
    (h : RequestHandler T R) (e : SocketError)
    (hdec : decodePayload (R := R) cT j = some p)
    (hfind : hashMapGet handlers p.command = some h)
    (herr : h p = Except.error e) :
    handle_connection cT cR handlers (ReadBytes.json j) =
      (Except.ok (),
       some (encodeResponse cR (SocketResponse.mkError R p.request_id e.toMessage))) ∧
    (SocketResponse.mkError R p.request_id e.toMessage).request_id = p.request_id ∧
    (SocketResponse.mkError R p.request_id e.toMessage).success = false ∧
    (SocketResponse.mkError R p.request_id e.toMessage).data = none ∧
    (SocketResponse.mkError R p.request_id e.toMessage).error = some e.toMessage := by
  refine ⟨?_, rfl, rfl, rfl, rfl⟩
  simp only [handle_connection, hdec, hfind, herr]

/-- A handler that always fails with `HandlerNotFound("inner")`, used to
exercise the handler-error path. -/
def failingHandler : RequestHandler Nat Nat :=
  fun _ => Except.error (SocketError.HandlerNotFound "inner")

/-- Witness for C4: a registered handler that returns an error still yields
`Ok(())` and an error response carrying the stringified error. -/
theorem handle_connection_handler_error_witness :
    handle_connection natCodec natCodec [("start", failingHandler)]
        (ReadBytes.json (encodePayload natCodec
          (⟨"id-3", "start", 7⟩ : SocketPayload Nat Nat))) =
      (Except.ok (),
       some (encodeResponse natCodec (SocketResponse.mkError Nat "id-3"
         (SocketError.HandlerNotFound "inner").toMessage))) ∧
    (SocketResponse.mkError Nat "id-3" (SocketError.HandlerNotFound "inner").toMessage).request_id = "id-3" ∧
    (SocketResponse.mkError Nat "id-3" (SocketError.HandlerNotFound "inner").toMessage).success = false ∧
    (SocketResponse.mkError Nat "id-3" (SocketError.HandlerNotFound "inner").toMessage).data = none ∧
    (SocketResponse.mkError Nat "id-3" (SocketError.HandlerNotFound "inner").toMessage).error =
      some (SocketError.HandlerNotFound "inner").toMessage :=
  handle_connection_handler_error natCodec natCodec [("start", failingHandler)]
    (encodePayload natCodec (⟨"id-3", "start", 7⟩ : SocketPayload Nat Nat))
    ⟨"id-3", "start", 7⟩ failingHandler (SocketError.HandlerNotFound "inner") rfl rfl rfl

/-- A handler that replies with a fixed, wrong request id: the server
forwards its response verbatim. -/
def spoofingHandler : RequestHandler Nat Nat :=
  fun _ => Except.ok (SocketResponse.mkSuccess "spoofed-id" 0)

/-- Counterexample to C1 as stated: the server forwards a found handler's
`Ok` response verbatim, so a handler that fabricates its own request id
produces a written response whose `request_id` differs from the request's.
The quantification over every registered handler therefore fails. -/
theorem handle_connection_request_id_counterexample :
    decodePayload (R := Nat) natCodec
        (encodePayload natCodec (⟨"orig-id", "start", 5⟩ : SocketPayload Nat Nat)) =
      some (⟨"orig-id", "start", 5⟩ : SocketPayload Nat Nat) ∧
    handle_connection natCodec natCodec [("start", spoofingHandler)]
        (ReadBytes.json (encodePayload natCodec
          (⟨"orig-id", "start", 5⟩ : SocketPayload Nat Nat))) =
      (Except.ok (),
       some (encodeResponse natCodec (SocketResponse.mkSuccess "spoofed-id" (0 : Nat)))) ∧
    (SocketResponse.mkSuccess "spoofed-id" (0 : Nat)).request_id ≠
      (⟨"orig-id", "start", 5⟩ : SocketPayload Nat Nat).request_id := by
  refine ⟨rfl, rfl, ?_⟩
  decide

/-- C1 (amended).  For every decoded request whose command has a registered
handler, the response written back carries the request's `request_id`,
provided the handler's successful responses do so (the server builds the
response itself, with the request's id, whenever the handler errs; a
successful handler's response is forwarded verbatim, so the guarantee is
conditional on the handler honouring the envelope invariant — as every
handler in this repository does). -/
theorem handle_connection_preserves_request_id (cT : Codec T) (cR : Codec R)
    (handlers : Registry T R) (j : Json) (p : SocketPayload T R)
    (h : RequestHandler T R)
    (hdec : decodePayload (R := R) cT j = some p)
    (hfind : hashMapGet handlers p.command = some h)
    (hpres : ∀ resp, h p = Except.ok resp → resp.request_id = p.request_id) :
    ∃ resp : SocketResponse R,
      handle_connection cT cR handlers (ReadBytes.json j) =
        (Except.ok (), some (encodeResponse cR resp)) ∧
      resp.request_id = p.request_id := by
  cases hp : h p with
  | ok resp =>
    exact ⟨resp, by simp only [handle_connection, hdec, hfind, hp], hpres resp hp⟩
  | error e =>
    exact ⟨SocketResponse.mkError R p.request_id e.toMessage,
      by simp only [handle_connection, hdec, hfind, hp], rfl⟩

/-- A handler that echoes the request id, as the handlers of this
repository do. -/
def echoingHandler : RequestHandler Nat Nat :=
  fun p => Except.ok (SocketResponse.mkSuccess p.request_id (p.data * 2))

/-- Witness for the amended C1 at a concrete echoing handler. -/
theorem handle_connection_preserves_request_id_witness :
    ∃ resp : SocketResponse Nat,
      handle_connection natCodec natCodec [("start", echoingHandler)]
          (ReadBytes.json (encodePayload natCodec
            (⟨"id-4", "start", 21⟩ : SocketPayload Nat Nat))) =
        (Except.ok (), some (encodeResponse natCodec resp)) ∧
      resp.request_id = "id-4" :=
  handle_connection_preserves_request_id natCodec natCodec [("start", echoingHandler)]
    (encodePayload natCodec (⟨"id-4", "start", 21⟩ : SocketPayload Nat Nat))
    ⟨"id-4", "start", 21⟩ echoingHandler rfl rfl
    (fun resp hr => by cases hr; rfl)

/-! ### Client dispatch -/

/-- C7.  `send_request` fails with `ConnectionTimeout` exactly when the
timed connect phase elapses, or the connect and the write succeed and the
timed read phase elapses; a connect that completes with an I/O error (such
as the immediate failure when no socket file exists at the configured
path) yields an `Io`-classified error instead. -/
theorem send_request_timeout_classification (cT : Codec T) (cR : Codec R)
    (env : ClientEnv) (payload : SocketPayload T R) :
    (send_request cT cR env payload = Except.error SocketError.ConnectionTimeout ↔
      env.connect = Timed.timedOut ∨
        (env.connect = Timed.completed (Except.ok ()) ∧
         env.write (encodePayload cT payload) = Except.ok () ∧
         env.read = Timed.timedOut)) ∧
    (∀ msg, env.connect = Timed.completed (Except.error msg) →
      send_request cT cR env payload = Except.error (SocketError.Io msg)) := by
  obtain ⟨c, w, r⟩ := env
  constructor
  · cases c with
    | timedOut => simp [send_request]
    | completed res =>
      cases res with
      | error e => simp [send_request]
      | ok u =>
        cases u
        cases hw : w (encodePayload cT payload) with
        | error e => simp [send_request, hw]
        | ok u2 =>
          cases u2
          cases r with
          | timedOut => simp [send_request, hw]
          | completed rres =>
            cases rres with
            | error e => simp [send_request, hw]
            | ok rb =>
              cases rb with
              | empty => simp [send_request, hw]
              | notJson => simp [send_request, hw]
              | json j => cases hd : decodeResponse cR j <;> simp [send_request, hw, hd]
  · intro msg hmsg
    simp only at hmsg
    subst hmsg
    simp [send_request]

/-- Witness for C7: a connect completing with a `No such file or
directory` I/O error is classified as `Io`, not `ConnectionTimeout`. -/
theorem send_request_timeout_classification_witness :
    send_request natCodec natCodec
        ⟨Timed.completed (Except.error "No such file or directory"),
         fun _ => Except.ok (), Timed.timedOut⟩
        (⟨"id-5", "start", 1⟩ : SocketPayload Nat Nat) =
      Except.error (SocketError.Io "No such file or directory") :=
  (send_request_timeout_classification natCodec natCodec
      ⟨Timed.completed (Except.error "No such file or directory"),
       fun _ => Except.ok (), Timed.timedOut⟩
      (⟨"id-5", "start", 1⟩ : SocketPayload Nat Nat)).2
    "No such file or directory" rfl

/-- C8.  When connect and write succeed and the single read completes with
zero bytes, `send_request` returns `Err(SocketError::InvalidRequest)`
rather than any response. -/
theorem send_request_empty_read (cT : Codec T) (cR : Codec R) (env : ClientEnv)
    (payload : SocketPayload T R)
    (hc : env.connect = Timed.completed (Except.ok ()))
    (hw : env.write (encodePayload cT payload) = Except.ok ())
    (hr : env.read = Timed.completed (Except.ok ReadBytes.empty)) :
    send_request cT cR env payload = Except.error SocketError.InvalidRequest := by
  simp only [send_request, hc, hw, hr]

/-- Witness for C8 at a concrete environment whose read yields zero bytes. -/
theorem send_request_empty_read_witness :
    send_request natCodec natCodec
        ⟨Timed.completed (Except.ok ()), fun _ => Except.ok (),
         Timed.completed (Except.ok ReadBytes.empty)⟩
        (⟨"id-6", "start", 1⟩ : SocketPayload Nat Nat) =
      Except.error SocketError.InvalidRequest :=
  send_request_empty_read natCodec natCodec
    ⟨Timed.completed (Except.ok ()), fun _ => Except.ok (),
     Timed.completed (Except.ok ReadBytes.empty)⟩
    (⟨"id-6", "start", 1⟩ : SocketPayload Nat Nat) rfl rfl rfl

/-! ### Handler registry -/

/-- Looking up the key just inserted returns the value just inserted. -/
theorem hashMapGet_insert_self (m : List (String × α)) (k : String) (v : α) :
    hashMapGet (hashMapInsert m k v) k = some v := by
  induction m with
  | nil => simp [hashMapInsert, hashMapGet]
  | cons a rest ih =>
    obtain ⟨k0, v0⟩ := a
    cases hk : k0 == k <;> simp [hashMapInsert, hashMapGet, hk, ih]

/-- The keys after an insert: unchanged when the key was present, the key
appended when it was not. -/
theorem keys_hashMapInsert (m : List (String × α)) (k : String) (v : α) :
    (hashMapInsert m k v).map Prod.fst =
      if k ∈ m.map Prod.fst then m.map Prod.fst else m.map Prod.fst ++ [k] := by
  induction m with
  | nil => simp [hashMapInsert]
  | cons a rest ih =>
    obtain ⟨k0, v0⟩ := a
    cases hk : k0 == k with
    | true =>
      have hk0 : k0 = k := eq_of_beq hk
      subst hk0
      simp [hashMapInsert, hk]
    | false =>
      have hk0 : ¬ k0 = k := fun hcontra => by simp [hcontra] at hk
      have hk0s : ¬ k = k0 := fun hcontra => hk0 hcontra.symm
      by_cases hmem : k ∈ rest.map Prod.fst <;>
        simp [hashMapInsert, hk, ih, hmem, hk0s]

/-- An insert into a registry with distinct keys keeps the keys distinct,
makes the key present, and leaves exactly one entry under the key. -/
theorem keys_insert_facts (m : List (String × α)) (k : String) (v : α)
    (hnd : (m.map Prod.fst).Nodup) :
    ((hashMapInsert m k v).map Prod.fst).Nodup ∧
    k ∈ (hashMapInsert m k v).map Prod.fst ∧
    List.count k ((hashMapInsert m k v).map Prod.fst) = 1 := by
  rw [keys_hashMapInsert]
  by_cases h : k ∈ m.map Prod.fst
  · rw [if_pos h]
    exact ⟨hnd, h, List.count_eq_one_of_mem hnd h⟩
  · rw [if_neg h]
    refine ⟨?_, ?_, ?_⟩
    · simp [List.nodup_append, hnd, h]
    · simp
    · rw [List.count_append, List.count_eq_zero.mpr h]
      simp

/-- C10.  Registering a second handler under an already-registered command
replaces the first: the registry still has distinct keys, keeps exactly one
entry for the command, and a subsequent lookup dispatches to the second
handler.  `registerHandler` is total — the duplicate key produces no error
or rejection. -/
theorem register_handler_last_wins (m : Registry T R) (c : String)
    (h1 h2 : RequestHandler T R) (hnd : (m.map Prod.fst).Nodup) :
    hashMapGet (registerHandler (registerHandler m c h1) c h2) c = some h2 ∧
    List.count c ((registerHandler (registerHandler m c h1) c h2).map Prod.fst) = 1 ∧
    ((registerHandler (registerHandler m c h1) c h2).map Prod.fst).Nodup := by
  have f1 := keys_insert_facts m c h1 hnd
  have f2 := keys_insert_facts (hashMapInsert m c h1) c h2 f1.1
  exact ⟨hashMapGet_insert_self _ c h2, f2.2.2, f2.1⟩

/-- Witness for C10: registering `echoingHandler` then `failingHandler`
under the same command on the empty registry leaves one entry, whose lookup
yields `failingHandler`. -/
theorem register_handler_last_wins_witness :
    hashMapGet (registerHandler (registerHandler ([] : Registry Nat Nat)
        "start" echoingHandler) "start" failingHandler) "start" = some failingHandler ∧
    List.count "start" ((registerHandler (registerHandler ([] : Registry Nat Nat)
        "start" echoingHandler) "start" failingHandler).map Prod.fst) = 1 ∧
    ((registerHandler (registerHandler ([] : Registry Nat Nat)
        "start" echoingHandler) "start" failingHandler).map Prod.fst).Nodup :=
  register_handler_last_wins [] "start" echoingHandler failingHandler (by simp)

end Circle
